import Mathlib

/-!
Shallow embedding of the MF2103 velocity-servo control kernel.

The definitions below translate, statement by statement, the C sources of the
repository: the fixed-point PI controller (`Source/controller.c`), the encoder
velocity estimator with wraparound correction and half-away-from-zero rounding
(`ApplicationTESTINSPO.c`), the PWM actuation driver (`Source/peripherals.c`),
the wire-message layout (`Include/network_protocol.h`), and the client-side
connection/fault state machine (`Source/app-client.c`).

Machine integers are modelled as `Int`/`Nat` with explicit reduction modulo
`2^16`, `2^32` and `2^64` exactly where a C cast or a fixed-width operation
occurs.  C `/` on signed operands truncates toward zero and is rendered as
`Int.tdiv`; Lean's `/` on `Int` (E-division) is used only in spec-side
definitions.
-/

namespace MF2103

/-- C `(int16_t)` conversion: reduce an integer into `[-32768, 32767]`. -/
def toInt16 (x : Int) : Int := (x + 32768) % 65536 - 32768

/-- C `(int32_t)` conversion: reduce an integer into `[-2^31, 2^31 - 1]`. -/
def wrapInt32 (x : Int) : Int := (x + 2147483648) % 4294967296 - 2147483648

/-- C `int64_t` overflow behaviour: reduce into `[-2^63, 2^63 - 1]`. -/
def wrapInt64 (x : Int) : Int :=
  (x + 9223372036854775808) % 18446744073709551616 - 9223372036854775808

/-- C `uint32_t` conversion on a natural number. -/
def toUInt32 (n : Nat) : Nat := n % 4294967296

/-- C `uint32_t` subtraction `a - b` (wrapping). -/
def usub32 (a b : Nat) : Nat :=
  (a % 4294967296 + 4294967296 - b % 4294967296) % 4294967296

/-! ## PI controller, from `EmbeddedMF2103/Source/controller.c` -/

/-- Proportional gain `KP` (control units / RPM). -/
def KP : Int := 300000

/-- Integral gain `KI` (control units / (RPM * second)). -/
def KI : Int := 400000

/-- Upper saturation bound of the control command. -/
def CONTROL_MAX : Int := 1073741823

/-- Lower saturation bound of the control command. -/
def CONTROL_MIN : Int := -1073741824

/-- The controller's static state: `integrator` (`int64_t`), `time_prev`
(`uint32_t`) and the `first_call_after_reset` flag. -/
structure CtrlState where
  integrator : Int
  time_prev : Nat
  first_call_after_reset : Bool
deriving DecidableEq, Repr

/-- `Controller_Reset`: zero the integrator, clear the time baseline, mark
the next call as first. -/
def Controller_Reset : CtrlState := ⟨0, 0, true⟩

/-- Core of `Controller_PIController` after the null-pointer guard, with the
state passed explicitly.  Every `int64_t` operation is wrapped, matching the C
arithmetic; the division by 1000 truncates toward zero (`Int.tdiv`). -/
def piStep (s : CtrlState) (ref meas : Int) (ms : Nat) : Int × CtrlState :=
  if s.first_call_after_reset then
    (0, ⟨0, toUInt32 ms, false⟩)
  else
    let now_ms := toUInt32 ms
    let dt_ms := usub32 ms s.time_prev
    if dt_ms = 0 then (0, ⟨s.integrator, now_ms, false⟩)
    else
      let error := wrapInt32 (ref - meas)
      let p_term := wrapInt64 (KP * error)
      let i_increment := (wrapInt64 (wrapInt64 (KI * error) * (dt_ms : Int))).tdiv 1000
      let integ := wrapInt64 (s.integrator + i_increment)
      let control_64 := wrapInt64 (p_term + integ)
      if control_64 > CONTROL_MAX then
        (wrapInt32 CONTROL_MAX, ⟨wrapInt64 (CONTROL_MAX - p_term), now_ms, false⟩)
      else if control_64 < CONTROL_MIN then
        (wrapInt32 CONTROL_MIN, ⟨wrapInt64 (CONTROL_MIN - p_term), now_ms, false⟩)
      else
        (wrapInt32 control_64, ⟨integ, now_ms, false⟩)

/-- `Controller_PIController(ref, meas, ms)`: pointer arguments are modelled
as `Option`s; any null pointer short-circuits to command `0` with the state
untouched. -/
def Controller_PIController (s : CtrlState) (ref meas : Option Int)
    (ms : Option Nat) : Int × CtrlState :=
  match ref, meas, ms with
  | some r, some m, some t => piStep s r m t
  | _, _, _ => (0, s)

/-! ## Velocity estimator, from `ApplicationTESTINSPO.c` -/

/-- `RESOLUTION`: encoder counts per revolution. -/
def RESOLUTION : Int := 44

/-- Estimator state: `encoder_prev` (`int16_t`), `time_prev` (`uint32_t`) and
the `first_call` flag. -/
structure EstState where
  encoder_prev : Int
  time_prev : Nat
  first_call : Bool
deriving DecidableEq, Repr

/-- The estimator's initial state after reset. -/
def Encoder_Reset : EstState := ⟨0, 0, true⟩

/-- The 16-bit wraparound correction of `Peripheral_Encoder_CalculateVelocity`:
a raw difference beyond half the counter span is folded back by one full
counter span (65536). -/
def wrapCorrect (d : Int) : Int :=
  if d > 32767 then d - 65536 else if d < -32767 then d + 65536 else d

/-- `Peripheral_Encoder_CalculateVelocity(ms)` with the raw `TIM1->CNT` read
modelled as the explicit input `cnt` and the static state passed explicitly.
The C `(int16_t)` read, the wraparound correction, the 64-bit intermediate
products, the sign-aware half-denominator rounding and the final `(int32_t)`
cast are all translated directly. -/
def Peripheral_Encoder_CalculateVelocity (s : EstState) (cnt : Int) (ms : Nat) :
    Int × EstState :=
  let encoder_current := toInt16 cnt
  if s.first_call then
    (0, ⟨encoder_current, toUInt32 ms, false⟩)
  else
    let dt_ms := usub32 ms s.time_prev
    if dt_ms = 0 then (0, s)
    else
      let encoder_diff := wrapCorrect (encoder_current - s.encoder_prev)
      let numerator := encoder_diff * 60000
      let denominator := RESOLUTION * (dt_ms : Int)
      let velocity_rpm :=
        if denominator ≠ 0 then
          if 0 ≤ numerator then
            wrapInt32 ((numerator + denominator.tdiv 2).tdiv denominator)
          else
            wrapInt32 ((numerator - denominator.tdiv 2).tdiv denominator)
        else 0
      (velocity_rpm, ⟨encoder_current, toUInt32 ms, false⟩)

/-- The velocity the estimator derives from a true displacement `d` over a
time step `dt`: the same rounded-division pipeline applied to `d` directly,
with no counter representation involved. -/
def velFromDiff (d : Int) (dt : Nat) : Int :=
  let numerator := d * 60000
  let denominator := RESOLUTION * (dt : Int)
  if denominator ≠ 0 then
    if 0 ≤ numerator then
      wrapInt32 ((numerator + denominator.tdiv 2).tdiv denominator)
    else
      wrapInt32 ((numerator - denominator.tdiv 2).tdiv denominator)
  else 0

/-- Mathematical round-half-away-from-zero of the fraction `num / den`
(for `den > 0`), written independently of the code's add-half-then-truncate
mechanism: `⌊(2|num| + den) / (2 den)⌋` with the sign of `num` restored. -/
def roundHalfAwayFromZero (num den : Int) : Int :=
  if 0 ≤ num then (2 * num + den) / (2 * den)
  else -((2 * (-num) + den) / (2 * den))

/-! ## Basic range lemmas -/

theorem toInt16_range (x : Int) : -32768 ≤ toInt16 x ∧ toInt16 x ≤ 32767 := by
  unfold toInt16; omega

theorem wrapInt32_range (x : Int) :
    -2147483648 ≤ wrapInt32 x ∧ wrapInt32 x ≤ 2147483647 := by
  unfold wrapInt32; omega

theorem wrapInt64_range (x : Int) :
    -9223372036854775808 ≤ wrapInt64 x ∧ wrapInt64 x ≤ 9223372036854775807 := by
  unfold wrapInt64; omega

theorem wrapInt32_eq_self (x : Int) (h1 : -2147483648 ≤ x) (h2 : x ≤ 2147483647) :
    wrapInt32 x = x := by
  unfold wrapInt32; omega

theorem wrapInt64_eq_self (x : Int) (h1 : -9223372036854775808 ≤ x)
    (h2 : x ≤ 9223372036854775807) : wrapInt64 x = x := by
  unfold wrapInt64; omega

/-! ## Controller lemmas -/

/-- Every value returned by `Controller_PIController` lies in the saturation
range, for every state and every combination of arguments. -/
theorem piController_output_in_range (s : CtrlState) (r m : Option Int)
    (t : Option Nat) :
    CONTROL_MIN ≤ (Controller_PIController s r m t).1 ∧
    (Controller_PIController s r m t).1 ≤ CONTROL_MAX := by
  rcases r with _ | r <;> rcases m with _ | m <;> rcases t with _ | t <;>
    simp only [Controller_PIController, CONTROL_MIN, CONTROL_MAX] <;>
    try omega
  simp only [piStep, KP, KI, CONTROL_MAX, CONTROL_MIN, wrapInt32, wrapInt64]
  split_ifs <;> dsimp only <;> omega

/-- On every computing call (not first, nonzero time step) the returned
command equals the stored integrator plus the proportional term, and that sum
lies inside the saturation range: the anti-windup clamp keeps the integrator
consistent with the clamped output. -/
theorem piStep_integrator_matches (s : CtrlState) (r m : Int) (t : Nat)
    (hf : s.first_call_after_reset = false) (hdt : usub32 t s.time_prev ≠ 0) :
    (piStep s r m t).1 = (piStep s r m t).2.integrator + KP * wrapInt32 (r - m) ∧
    CONTROL_MIN ≤ (piStep s r m t).2.integrator + KP * wrapInt32 (r - m) ∧
    (piStep s r m t).2.integrator + KP * wrapInt32 (r - m) ≤ CONTROL_MAX := by
  simp only [piStep, hf, Bool.false_eq_true, if_false]
  split_ifs with h1 h2 h3
  · exact absurd h1 hdt
  all_goals
    simp only [KP, KI, CONTROL_MAX, CONTROL_MIN, wrapInt32, wrapInt64] at h2 ⊢
  · omega
  all_goals
    simp only [KP, KI, CONTROL_MAX, CONTROL_MIN, wrapInt32, wrapInt64] at h3 ⊢
  all_goals omega

/-! ## PWM actuation, from `EmbeddedMF2103/Source/peripherals.c` -/



def VEL_MAX : Int := 1073741824

def clampVel (vel : Int) : Int :=
  let v1 := if vel > VEL_MAX then VEL_MAX else vel
  if v1 < -VEL_MAX then -VEL_MAX else v1

def dutyScale (arr : Nat) (mag : Int) : Int :=
  let duty0 := wrapInt32 ((mag * (arr : Int)) / 1073741824)
  let duty1 := if duty0 > wrapInt32 (arr : Int) then wrapInt32 (arr : Int) else duty0
  if duty1 < 0 then 0 else duty1

def Peripheral_PWM_ActuateMotor (arr : Nat) (vel0 : Int) : Nat × Nat :=
  let vel := clampVel vel0
  if vel = 0 then (0, 0)
  else if vel > 0 then ((dutyScale arr vel).toNat % 65536, 0)
  else (0, (dutyScale arr (-vel)).toNat % 65536)

theorem dutyScale_range (arr : Nat) (mag : Int) (harr : arr ≤ 65535) :
    0 ≤ dutyScale arr mag ∧ dutyScale arr mag ≤ (arr : Int) := by
  simp only [dutyScale, wrapInt32]
  split_ifs <;> omega

theorem clampVel_sign (vel : Int) :
    (0 < vel → 0 < clampVel vel) ∧ (vel < 0 → clampVel vel < 0) ∧
    (vel = 0 → clampVel vel = 0) := by
  simp only [clampVel, VEL_MAX]
  split_ifs <;> omega

theorem clampVel_sat_hi (vel : Int) (h : VEL_MAX ≤ vel) : clampVel vel = VEL_MAX := by
  simp only [clampVel, VEL_MAX] at *
  split_ifs <;> omega

theorem clampVel_sat_lo (vel : Int) (h : vel ≤ -VEL_MAX) : clampVel vel = -VEL_MAX := by
  simp only [clampVel, VEL_MAX] at *
  split_ifs <;> omega

theorem actuate_congr (arr : Nat) (v w : Int) (h : clampVel v = clampVel w) :
    Peripheral_PWM_ActuateMotor arr v = Peripheral_PWM_ActuateMotor arr w := by
  simp only [Peripheral_PWM_ActuateMotor, h]

theorem actuate_cases (arr : Nat) (vel : Int) :
    (clampVel vel = 0 ∧ Peripheral_PWM_ActuateMotor arr vel = (0, 0)) ∨
    (0 < clampVel vel ∧ Peripheral_PWM_ActuateMotor arr vel
        = ((dutyScale arr (clampVel vel)).toNat % 65536, 0)) ∨
    (clampVel vel < 0 ∧ Peripheral_PWM_ActuateMotor arr vel
        = (0, (dutyScale arr (-(clampVel vel))).toNat % 65536)) := by
  simp only [Peripheral_PWM_ActuateMotor]
  split_ifs with h1 h2
  · exact Or.inl ⟨h1, rfl⟩
  · exact Or.inr (Or.inl ⟨h2, rfl⟩)
  · exact Or.inr (Or.inr ⟨by omega, rfl⟩)

theorem C10_pwm_actuation_bounds (arr : Nat) (vel : Int) (harr : arr ≤ 65535) :
    (Peripheral_PWM_ActuateMotor arr vel).1 ≤ arr ∧
    (Peripheral_PWM_ActuateMotor arr vel).2 ≤ arr ∧
    (vel = 0 → Peripheral_PWM_ActuateMotor arr vel = (0, 0)) ∧
    (0 < vel → (Peripheral_PWM_ActuateMotor arr vel).2 = 0) ∧
    (vel < 0 → (Peripheral_PWM_ActuateMotor arr vel).1 = 0) ∧
    ((Peripheral_PWM_ActuateMotor arr vel).1 = 0 ∨
      (Peripheral_PWM_ActuateMotor arr vel).2 = 0) ∧
    (VEL_MAX ≤ vel → Peripheral_PWM_ActuateMotor arr vel
        = Peripheral_PWM_ActuateMotor arr VEL_MAX) ∧
    (vel ≤ -VEL_MAX → Peripheral_PWM_ActuateMotor arr vel
        = Peripheral_PWM_ActuateMotor arr (-VEL_MAX)) := by
  have hs := clampVel_sign vel
  have hd1 := dutyScale_range arr (clampVel vel) harr
  have hd2 := dutyScale_range arr (-(clampVel vel)) harr
  have hhi : VEL_MAX ≤ vel → Peripheral_PWM_ActuateMotor arr vel
      = Peripheral_PWM_ActuateMotor arr VEL_MAX := fun h =>
    actuate_congr arr vel VEL_MAX
      (by rw [clampVel_sat_hi vel h, clampVel_sat_hi VEL_MAX (le_refl _)])
  have hlo : vel ≤ -VEL_MAX → Peripheral_PWM_ActuateMotor arr vel
      = Peripheral_PWM_ActuateMotor arr (-VEL_MAX) := fun h =>
    actuate_congr arr vel (-VEL_MAX)
      (by rw [clampVel_sat_lo vel h, clampVel_sat_lo (-VEL_MAX) (le_refl _)])
  rcases actuate_cases arr vel with ⟨hz, he⟩ | ⟨hp, he⟩ | ⟨hn, he⟩ <;> rw [he] <;>
    refine ⟨by dsimp only; omega, by dsimp only; omega, ?_, ?_, ?_, ?_, by rw [← he]; exact hhi, by rw [← he]; exact hlo⟩
  · exact fun _ => rfl
  · exact fun _ => rfl
  · exact fun _ => rfl
  · exact Or.inl rfl
  · intro h; rw [hs.2.2 h] at hp; exact absurd hp (by omega)
  · exact fun _ => rfl
  · intro h; have := hs.2.1 h; omega
  · exact Or.inr rfl
  · intro h; rw [hs.2.2 h] at hn; exact absurd hn (by omega)
  · intro h; have := hs.1 h; omega
  · exact fun _ => rfl
  · exact Or.inl rfl

/-! ## Wire messages, from `Include/network_protocol.h` and `app_comm` -/


/-- `ClientData_t` from `network_protocol.h`: `int32_t velocity` then
`uint32_t timestamp`. -/
structure ClientData where
  velocity : Int
  timestamp : Nat
deriving DecidableEq, Repr

/-- `ServerData_t` from `network_protocol.h`: a single `int32_t control`. -/
structure ServerData where
  control : Int
deriving DecidableEq, Repr

/-- The four little-endian bytes of a 32-bit value, as laid out in memory on
the Cortex-M target and sent verbatim by `send`. -/
def encodeU32LE (n : Nat) : List Nat :=
  [n % 256, n / 256 % 256, n / 65536 % 256, n / 16777216 % 256]

/-- Recompose a 32-bit value from exactly four little-endian bytes. -/
def decodeU32LE (bs : List Nat) : Nat :=
  match bs with
  | [b0, b1, b2, b3] => b0 + 256 * b1 + 65536 * b2 + 16777216 * b3
  | _ => 0

/-- Bytes of an `int32_t` field (two's complement, little-endian). -/
def intToBytesLE (x : Int) : List Nat := encodeU32LE (x % 4294967296).toNat

/-- The 8 bytes `send` transmits for a `ClientData_t`: velocity field first,
timestamp second, with no padding. -/
def encodeClientData (m : ClientData) : List Nat :=
  intToBytesLE m.velocity ++ encodeU32LE (m.timestamp % 4294967296)

/-- Parsing the bytes `recv` produced for a `ClientData_t`.  `app_comm`
treats any transfer whose byte count differs from `sizeof(ClientData_t)` as a
fault, so a short or long buffer is never parsed: the result is `none`. -/
def decodeClientData (bs : List Nat) : Option ClientData :=
  if bs.length = 8 then
    some ⟨wrapInt32 (decodeU32LE (bs.take 4) : Int), decodeU32LE (bs.drop 4)⟩
  else none

/-- The 4 bytes `send` transmits for a `ServerData_t`. -/
def encodeServerData (m : ServerData) : List Nat := intToBytesLE m.control

/-- Parsing the bytes `recv` produced for a `ServerData_t`; a transfer of a
wrong byte count is a fault, never a partial parse. -/
def decodeServerData (bs : List Nat) : Option ServerData :=
  if bs.length = 4 then some ⟨wrapInt32 (decodeU32LE bs : Int)⟩ else none

theorem decode_encode_u32 (n : Nat) (h : n < 4294967296) :
    decodeU32LE (encodeU32LE n) = n := by
  simp only [encodeU32LE, decodeU32LE]
  omega

theorem decode_encode_int32 (x : Int) (h1 : -2147483648 ≤ x) (h2 : x ≤ 2147483647) :
    wrapInt32 (decodeU32LE (intToBytesLE x) : Int) = x := by
  have hx : (x % 4294967296).toNat < 4294967296 := by omega
  rw [intToBytesLE, decode_encode_u32 _ hx]
  have he : ((x % 4294967296).toNat : Int) = x % 4294967296 :=
    Int.toNat_of_nonneg (by omega)
  rw [he]
  unfold wrapInt32
  omega

/-! ## Link session and fault handling, from `Source/app-client.c` -/



/-- Control loop period in milliseconds (the 50 ms timer of `app-client.c`). -/
def PERIOD_CTRL : Nat := 50

def FLAG_connected : Nat := 2
def FLAG_disconnected : Nat := 4
def FLAG_data_ready : Nat := 8
def FLAG_control_received : Nat := 16

/-- Observable actions of the client threads, in program order: actuator
writes, motor enable/disable, timer control, socket operations, controller
resets, fixed delays and RTOS flag signals. -/
inductive AppEvent where
  | actuate (v : Int)
  | disableMotor
  | enableMotor
  | timerStop
  | timerStart (period : Nat)
  | closeSocket
  | socketCreate
  | connectCall
  | resetController
  | delay (ms : Nat)
  | signalFlag (flag : Nat)
  | calcVelocity
  | sendMeasurement
  | recvCommand
deriving DecidableEq, Repr

/-- The client's connection state: `connection_established`,
`connection_lost` and whether `client_socket >= 0`. -/
structure LinkState where
  connection_established : Bool
  connection_lost : Bool
  socket_open : Bool
deriving DecidableEq, Repr

/-- The `connection_lost` recovery block of `Application_Loop`
(`app-client.c` lines 100-124): stop the motor first, disable it, stop the
control timer, close the socket if open, clear both connection flags, reset
the controller and wait a fixed 1000 ms before reconnecting. -/
def handleDisconnect (st : LinkState) : List AppEvent × LinkState :=
  (AppEvent.actuate 0 :: AppEvent.disableMotor :: AppEvent.timerStop ::
    ((if st.socket_open then [AppEvent.closeSocket] else [])
      ++ [AppEvent.resetController, AppEvent.delay 1000]),
   ⟨false, false, false⟩)

/-- The connection-attempt block of `Application_Loop` (lines 127-172),
with the outcomes of the `socket` and `connect` calls as inputs.  On success
the controller is reset, the motor enabled and the control timer started; on
failure the socket is released and a fixed 500 ms backoff is taken. -/
def tryConnect (st : LinkState) (socketOk connectOk : Bool) :
    List AppEvent × LinkState :=
  if st.connection_established then ([], st)
  else if socketOk then
    if connectOk then
      ([AppEvent.socketCreate, AppEvent.connectCall, AppEvent.resetController,
        AppEvent.enableMotor, AppEvent.timerStart PERIOD_CTRL,
        AppEvent.signalFlag FLAG_connected],
       ⟨true, false, true⟩)
    else
      ([AppEvent.socketCreate, AppEvent.connectCall, AppEvent.closeSocket,
        AppEvent.delay 500],
       ⟨false, st.connection_lost, false⟩)
  else ([AppEvent.socketCreate, AppEvent.delay 500],
        ⟨false, st.connection_lost, false⟩)

/-- One pass of `Application_Loop`'s connection-management `for` loop. -/
def Application_Loop_iter (st : LinkState) (socketOk connectOk : Bool) :
    List AppEvent × LinkState :=
  let h := if st.connection_lost then handleDisconnect st else ([], st)
  let t := tryConnect h.2 socketOk connectOk
  (h.1 ++ t.1, t.2)

/-- One iteration of the `app_ctrl` thread body after the periodic flag
(lines 206-234).  `gotControl` is whether the wait for
`FLAG_control_received` succeeded within `PERIOD_CTRL * 2`; on timeout the
motor is stopped before `FLAG_disconnected` is signalled. -/
def app_ctrl_iter (st : LinkState) (gotControl : Bool) (control : Int) :
    List AppEvent × LinkState :=
  if !st.connection_established || st.connection_lost then ([], st)
  else if gotControl then
    ([AppEvent.calcVelocity, AppEvent.signalFlag FLAG_data_ready,
      AppEvent.actuate control], st)
  else
    ([AppEvent.calcVelocity, AppEvent.signalFlag FLAG_data_ready,
      AppEvent.actuate 0, AppEvent.signalFlag FLAG_disconnected],
     ⟨st.connection_established, true, st.socket_open⟩)

/-- One round of the `app_comm` communication loop (lines 257-305): socket
status poll, wait for fresh data, then one send/recv round trip.  A
non-established status, a data timeout, or a transfer of a byte count other
than the full struct size each set `connection_lost` and signal the
disconnect. -/
def app_comm_round (st : LinkState) (statusEstablished dataReady : Bool)
    (bytes_sent bytes_received : Nat) : List AppEvent × LinkState :=
  if !st.connection_established || st.connection_lost then ([], st)
  else if !statusEstablished then
    ([AppEvent.signalFlag FLAG_disconnected],
     ⟨st.connection_established, true, st.socket_open⟩)
  else if !dataReady then
    ([AppEvent.signalFlag FLAG_disconnected],
     ⟨st.connection_established, true, st.socket_open⟩)
  else if bytes_sent ≠ 8 then
    ([AppEvent.sendMeasurement, AppEvent.signalFlag FLAG_disconnected],
     ⟨st.connection_established, true, st.socket_open⟩)
  else if bytes_received ≠ 4 then
    ([AppEvent.sendMeasurement, AppEvent.recvCommand,
      AppEvent.signalFlag FLAG_disconnected],
     ⟨st.connection_established, true, st.socket_open⟩)
  else
    ([AppEvent.sendMeasurement, AppEvent.recvCommand,
      AppEvent.signalFlag FLAG_control_received], st)


/-! ## Estimator lemmas -/

/-- Feeding the estimator an old count `a` and then the 16-bit representation
of `a + d` recovers exactly the true displacement `d`, whether or not the
counter wrapped. -/
theorem wrapCorrect_recovers (a d : Int) (ha1 : -32768 ≤ a) (ha2 : a ≤ 32767)
    (hd1 : -32767 ≤ d) (hd2 : d ≤ 32767) :
    wrapCorrect (toInt16 (toInt16 (a + d)) - a) = d := by
  unfold wrapCorrect toInt16
  split_ifs <;> omega

/-- The corrected displacement of two in-range counter readings lies within
one counter half-span (inclusive). -/
theorem wrapCorrect_bound (x : Int) (h1 : -65535 ≤ x) (h2 : x ≤ 65535) :
    -32768 ≤ wrapCorrect x ∧ wrapCorrect x ≤ 32768 := by
  unfold wrapCorrect; split_ifs <;> omega

/-- The code's add-half-then-truncate division over denominator `44 * dt`
computes exactly the mathematical round-half-away-from-zero of the
fraction. -/
theorem round_code_eq_spec (num dt : Int) (hdt : 1 ≤ dt)
    (hn1 : -1966080000 ≤ num) (hn2 : num ≤ 1966080000) :
    (if 0 ≤ num then wrapInt32 ((num + (44 * dt).tdiv 2).tdiv (44 * dt))
     else wrapInt32 ((num - (44 * dt).tdiv 2).tdiv (44 * dt)))
    = roundHalfAwayFromZero num (44 * dt) := by
  have h2 : (44 * dt).tdiv 2 = 22 * dt := by
    have e : (44 : Int) * dt = 2 * (22 * dt) := by ring
    rw [e, Int.mul_tdiv_cancel_left _ (by norm_num)]
  rcases le_or_lt 0 num with hpos | hneg
  · rw [if_pos hpos]
    unfold roundHalfAwayFromZero
    rw [if_pos hpos]
    have ht : (num + 22 * dt).tdiv (44 * dt) = (num + 22 * dt) / (44 * dt) :=
      Int.tdiv_eq_ediv (by omega) (by omega)
    have hspec : (2 * num + 44 * dt) / (2 * (44 * dt))
        = (num + 22 * dt) / (44 * dt) := by
      have e2 : 2 * num + 44 * dt = 2 * (num + 22 * dt) := by ring
      rw [e2, Int.mul_ediv_mul_of_pos _ _ (by norm_num : (0:Int) < 2)]
    rw [h2, ht, hspec]
    refine wrapInt32_eq_self _ ?_ ?_
    · have := Int.ediv_nonneg (a := num + 22 * dt) (b := 44 * dt) (by omega) (by omega)
      omega
    · have hlt : (num + 22 * dt) / (44 * dt) < 2147483648 := by
        rw [Int.ediv_lt_iff_lt_mul (by omega)]
        omega
      omega
  · rw [if_neg (by omega)]
    unfold roundHalfAwayFromZero
    rw [if_neg (by omega)]
    have e3 : num - 22 * dt = -(-num + 22 * dt) := by ring
    rw [h2, e3, Int.neg_tdiv]
    have ht : (-num + 22 * dt).tdiv (44 * dt) = (-num + 22 * dt) / (44 * dt) :=
      Int.tdiv_eq_ediv (by omega) (by omega)
    have hspec : (2 * -num + 44 * dt) / (2 * (44 * dt))
        = (-num + 22 * dt) / (44 * dt) := by
      have e2 : 2 * -num + 44 * dt = 2 * (-num + 22 * dt) := by ring
      rw [e2, Int.mul_ediv_mul_of_pos _ _ (by norm_num : (0:Int) < 2)]
    rw [ht, hspec]
    have h0 : 0 ≤ (-num + 22 * dt) / (44 * dt) :=
      Int.ediv_nonneg (by omega) (by omega)
    have hlt : (-num + 22 * dt) / (44 * dt) < 2147483648 := by
      rw [Int.ediv_lt_iff_lt_mul (by omega)]
      omega
    rw [wrapInt32_eq_self _ (by omega) (by omega)]

/-! ## Claim theorems -/

/-- C1.  For a first raw count `a` in signed 16-bit range and a true
displacement `d` with `|d| <= 32767`, feeding the estimator `a` and then
`a + d` reduced modulo 65536 into signed range yields exactly the velocity
derived from `d` and the elapsed time — the wraparound correction
(subtract 65536 when the raw difference exceeds 32767, add 65536 below
-32767) makes the result independent of whether the counter wrapped. -/
theorem C1_wraparound_displacement_recovery (a d : Int) (ms0 ms1 : Nat)
    (ha1 : -32768 ≤ a) (ha2 : a ≤ 32767) (hd1 : -32767 ≤ d) (hd2 : d ≤ 32767)
    (hdt : usub32 ms1 ms0 ≠ 0) (hms0 : ms0 < 4294967296) :
    (Peripheral_Encoder_CalculateVelocity
        ((Peripheral_Encoder_CalculateVelocity Encoder_Reset a ms0).2)
        (toInt16 (a + d)) ms1).1
      = velFromDiff d (usub32 ms1 ms0) := by
  have hstep1 : (Peripheral_Encoder_CalculateVelocity Encoder_Reset a ms0).2
      = ⟨toInt16 a, ms0, false⟩ := by
    simp only [Peripheral_Encoder_CalculateVelocity, Encoder_Reset, if_true]
    simp only [toUInt32]
    congr 1
    omega
  rw [hstep1]
  have ha : toInt16 a = a := by unfold toInt16; omega
  simp only [Peripheral_Encoder_CalculateVelocity, velFromDiff, ha,
    Bool.false_eq_true, if_false, hdt]
  rw [wrapCorrect_recovers a d ha1 ha2 hd1 hd2]

/-- Witness for C1 at a wrapping input: old count 32767, displacement 2 (the
counter wraps to -32767). -/
theorem C1_witness :
    (Peripheral_Encoder_CalculateVelocity
        ((Peripheral_Encoder_CalculateVelocity Encoder_Reset 32767 0).2)
        (toInt16 (32767 + 2)) 50).1
      = velFromDiff 2 (usub32 50 0) :=
  C1_wraparound_displacement_recovery 32767 2 0 50 (by norm_num) (by norm_num)
    (by norm_num) (by norm_num) (by decide) (by norm_num)

/-- C2.  Every command returned by `Controller_PIController` lies in
`[CONTROL_MIN, CONTROL_MAX] = [-1073741824, 1073741823]`, for every state
and argument; and on every computing tick the returned command equals the
stored integrator plus that tick's proportional term, a sum that always lies
inside the saturation range — the anti-windup clamp reassigns the integrator
to the clamped command minus the proportional term, so an in-range unclamped
sum is returned unclamped on the very next tick. -/
theorem C2_saturation_and_anti_windup :
    (∀ (s : CtrlState) (r m : Option Int) (t : Option Nat),
      CONTROL_MIN ≤ (Controller_PIController s r m t).1 ∧
      (Controller_PIController s r m t).1 ≤ CONTROL_MAX) ∧
    (∀ (s : CtrlState) (r m : Int) (t : Nat),
      s.first_call_after_reset = false → usub32 t s.time_prev ≠ 0 →
      (piStep s r m t).1
          = (piStep s r m t).2.integrator + KP * wrapInt32 (r - m) ∧
      CONTROL_MIN ≤ (piStep s r m t).2.integrator + KP * wrapInt32 (r - m) ∧
      (piStep s r m t).2.integrator + KP * wrapInt32 (r - m) ≤ CONTROL_MAX) :=
  ⟨piController_output_in_range, piStep_integrator_matches⟩

/-- Witness for C2 at a concrete reset state and a concrete computing tick. -/
theorem C2_witness :
    (CONTROL_MIN ≤ (Controller_PIController ⟨0, 0, true⟩ (some 2000) (some 0)
        (some 0)).1 ∧
      (Controller_PIController ⟨0, 0, true⟩ (some 2000) (some 0)
        (some 0)).1 ≤ CONTROL_MAX) ∧
    ((piStep ⟨0, 0, false⟩ 2000 0 50).1
        = (piStep ⟨0, 0, false⟩ 2000 0 50).2.integrator
            + KP * wrapInt32 (2000 - 0) ∧
      CONTROL_MIN ≤ (piStep ⟨0, 0, false⟩ 2000 0 50).2.integrator
            + KP * wrapInt32 (2000 - 0) ∧
      (piStep ⟨0, 0, false⟩ 2000 0 50).2.integrator
            + KP * wrapInt32 (2000 - 0) ≤ CONTROL_MAX) :=
  ⟨C2_saturation_and_anti_windup.1 ⟨0, 0, true⟩ (some 2000) (some 0) (some 0),
   C2_saturation_and_anti_windup.2 ⟨0, 0, false⟩ 2000 0 50 rfl (by decide)⟩

/-- C3.  Scenario values: after reset, (ref 2000, meas 0) at t = 0 returns 0;
at t = 50 (dt = 50 ms) the proportional term is 600000000, the integrator
becomes 40000000 and the unclamped command 640000000 is returned.  With
dt = 2000 ms for two ticks from a zero integrator, each tick's proportional
plus integrator exceeds `CONTROL_MAX`, the output clamps exactly to
`CONTROL_MAX`, and the integrator is back-computed to `CONTROL_MAX` minus
the tick's proportional term. -/
theorem C3_scenario_values :
    (Controller_PIController Controller_Reset (some 2000) (some 0)
        (some 0)).1 = 0 ∧
    KP * (2000 - 0) = 600000000 ∧
    (Controller_PIController
        ((Controller_PIController Controller_Reset (some 2000) (some 0)
          (some 0)).2) (some 2000) (some 0) (some 50)).1 = 640000000 ∧
    (Controller_PIController
        ((Controller_PIController Controller_Reset (some 2000) (some 0)
          (some 0)).2) (some 2000) (some 0) (some 50)).2.integrator
      = 40000000 ∧
    (Controller_PIController
        ((Controller_PIController Controller_Reset (some 2000) (some 0)
          (some 0)).2) (some 2000) (some 0) (some 2000)).1 = CONTROL_MAX ∧
    (Controller_PIController
        ((Controller_PIController Controller_Reset (some 2000) (some 0)
          (some 0)).2) (some 2000) (some 0) (some 2000)).2.integrator
      = CONTROL_MAX - 600000000 ∧
    (Controller_PIController
        ((Controller_PIController
          ((Controller_PIController Controller_Reset (some 2000) (some 0)
            (some 0)).2) (some 2000) (some 0) (some 2000)).2)
        (some 2000) (some 0) (some 4000)).1 = CONTROL_MAX ∧
    (Controller_PIController
        ((Controller_PIController
          ((Controller_PIController Controller_Reset (some 2000) (some 0)
            (some 0)).2) (some 2000) (some 0) (some 2000)).2)
        (some 2000) (some 0) (some 4000)).2.integrator
      = CONTROL_MAX - 600000000 ∧
    CONTROL_MAX < 600000000 + 1600000000 ∧
    CONTROL_MAX < 600000000 + (CONTROL_MAX - 600000000 + 1600000000) := by
  decide

/-- C4.  For every timestamp, including 0, the first call after a reset of
the controller or of the estimator returns 0 without dividing, records the
timestamp (and the 16-bit raw count, for the estimator) as the new baseline,
zeroes the integrator and clears the first-call flag. -/
theorem C4_first_call_neutral (s : CtrlState) (e : EstState) (r m cnt : Int)
    (t : Nat) (hs : s.first_call_after_reset = true) (he : e.first_call = true)
    (ht : t < 4294967296) :
    Controller_PIController s (some r) (some m) (some t) = (0, ⟨0, t, false⟩) ∧
    Peripheral_Encoder_CalculateVelocity e cnt t
      = (0, ⟨toInt16 cnt, t, false⟩) := by
  have htu : toUInt32 t = t := by unfold toUInt32; omega
  constructor
  · simp only [Controller_PIController, piStep, hs, if_true, htu]
  · simp only [Peripheral_Encoder_CalculateVelocity, he, if_true, htu]

/-- Witness for C4 at timestamp 0, nonzero junk state fields and an
out-of-range raw count. -/
theorem C4_witness :
    Controller_PIController ⟨99, 7, true⟩ (some 2000) (some 0) (some 0)
      = (0, ⟨0, 0, false⟩) ∧
    Peripheral_Encoder_CalculateVelocity ⟨5, 9, true⟩ 70000 0
      = (0, ⟨toInt16 70000, 0, false⟩) :=
  C4_first_call_neutral ⟨99, 7, true⟩ ⟨5, 9, true⟩ 2000 0 70000 0 rfl rfl
    (by norm_num)

/-- C5 counterexample.  After reset and calls at t = 0 and t = 50 the
controller returns 640000000; repeating the call with the identical
timestamp 50 returns 0, not the previous output — the claim that a repeated
timestamp reproduces the previous output is false on the code. -/
theorem C5_counterexample :
    (Controller_PIController
        ((Controller_PIController
          ((Controller_PIController Controller_Reset (some 2000) (some 0)
            (some 0)).2) (some 2000) (some 0) (some 50)).2)
        (some 2000) (some 0) (some 50)).1
      ≠ (Controller_PIController
          ((Controller_PIController Controller_Reset (some 2000) (some 0)
            (some 0)).2) (some 2000) (some 0) (some 50)).1 := by
  decide

/-- C5 amended.  A second call with a timestamp identical to the previous
call's (dt = 0) returns 0 from both `Controller_PIController` and the
estimator, and leaves every stored state field — previous timestamp,
previous count, integrator, first-call flag — unchanged. -/
theorem C5_zero_dt_amended (s : CtrlState) (e : EstState) (r m cnt : Int)
    (t : Nat) (hs : s.first_call_after_reset = false)
    (hts : usub32 t s.time_prev = 0) (hsp : s.time_prev < 4294967296)
    (he : e.first_call = false) (hte : usub32 t e.time_prev = 0) :
    Controller_PIController s (some r) (some m) (some t) = (0, s) ∧
    Peripheral_Encoder_CalculateVelocity e cnt t = (0, e) := by
  constructor
  · rcases s with ⟨i, tp, fc⟩
    simp only [CtrlState.first_call_after_reset] at hs
    subst hs
    simp only [CtrlState.time_prev] at hts hsp
    simp only [Controller_PIController, piStep, Bool.false_eq_true, if_false]
    rw [if_pos hts]
    have htp : toUInt32 t = tp := by unfold toUInt32 usub32 at *; omega
    rw [htp]
  · rcases e with ⟨p, tp, fc⟩
    simp only [EstState.first_call] at he
    subst he
    simp only [EstState.time_prev] at hte
    simp only [Peripheral_Encoder_CalculateVelocity, Bool.false_eq_true,
      if_false]
    rw [if_pos hte]

/-- Witness for C5's amended statement at a repeated timestamp 100. -/
theorem C5_witness :
    Controller_PIController ⟨123, 100, false⟩ (some 2000) (some 0) (some 100)
      = (0, ⟨123, 100, false⟩) ∧
    Peripheral_Encoder_CalculateVelocity ⟨7, 100, false⟩ 3 100
      = (0, ⟨7, 100, false⟩) :=
  C5_zero_dt_amended ⟨123, 100, false⟩ ⟨7, 100, false⟩ 2000 0 3 100 rfl
    (by decide) (by norm_num) rfl (by decide)

/-- C6.  On every computing tick the estimator's returned rpm is exactly the
round-half-away-from-zero of `diff * 60000 / (RESOLUTION * dt)`: the code's
64-bit add-half-the-denominator-then-truncate mechanism (added for a
non-negative numerator, subtracted for a negative one) implements that
rounding. -/
theorem C6_rounding_half_away (s : EstState) (cnt : Int) (ms : Nat)
    (hp1 : -32768 ≤ s.encoder_prev) (hp2 : s.encoder_prev ≤ 32767)
    (hf : s.first_call = false) (hdt : usub32 ms s.time_prev ≠ 0) :
    (Peripheral_Encoder_CalculateVelocity s cnt ms).1
      = roundHalfAwayFromZero
          (wrapCorrect (toInt16 cnt - s.encoder_prev) * 60000)
          (RESOLUTION * (usub32 ms s.time_prev : Int)) := by
  have hdt1 : 1 ≤ ((usub32 ms s.time_prev : Nat) : Int) := by omega
  have hwc := wrapCorrect_bound (toInt16 cnt - s.encoder_prev)
    (by have := toInt16_range cnt; omega) (by have := toInt16_range cnt; omega)
  simp only [Peripheral_Encoder_CalculateVelocity, hf, Bool.false_eq_true,
    if_false, hdt, RESOLUTION]
  rw [if_pos (by omega : (44 * ((usub32 ms s.time_prev : Nat) : Int) ≠ 0))]
  exact round_code_eq_spec _ _ hdt1 (by omega) (by omega)

/-- Witness for C6 at a negative displacement. -/
theorem C6_witness :
    (Peripheral_Encoder_CalculateVelocity ⟨100, 0, false⟩ (-30000) 50).1
      = roundHalfAwayFromZero
          (wrapCorrect (toInt16 (-30000) - 100) * 60000)
          (RESOLUTION * (usub32 50 0 : Int)) :=
  C6_rounding_half_away ⟨100, 0, false⟩ (-30000) 50 (by norm_num) (by norm_num)
    rfl (by decide)

/-- C7.  Transport faults in the split topology: the fault-recovery pass of
`Application_Loop` actuates the neutral command 0 as its very first action
and drains to the idle state before any reconnection step; every
`app_comm` transport fault (bad socket status, data timeout, short send or
short receive) while connected sets `connection_lost` and signals the
disconnect; the `app_ctrl` round-trip timeout stops the motor before
signalling the disconnect; a successful reconnection resets the controller,
whose first tick then returns 0 with a zero integrator; and failed
connection attempts back off by a fixed 500 ms (1000 ms after a fault) and
leave the session unconnected so the attempt repeats. -/
theorem C7_fault_neutral_reconnect :
    (∀ (st : LinkState) (so co : Bool), st.connection_lost = true →
      (Application_Loop_iter st so co).1.head? = some (AppEvent.actuate 0) ∧
      (handleDisconnect st).2 = ⟨false, false, false⟩) ∧
    (∀ (st : LinkState) (se dr : Bool) (bs br : Nat),
      st.connection_established = true → st.connection_lost = false →
      (se = false ∨ dr = false ∨ bs ≠ 8 ∨ br ≠ 4) →
      (app_comm_round st se dr bs br).2.connection_lost = true ∧
      AppEvent.signalFlag FLAG_disconnected ∈ (app_comm_round st se dr bs br).1) ∧
    (∀ (st : LinkState) (c : Int),
      st.connection_established = true → st.connection_lost = false →
      (app_ctrl_iter st false c).1
        = [AppEvent.calcVelocity, AppEvent.signalFlag FLAG_data_ready,
           AppEvent.actuate 0, AppEvent.signalFlag FLAG_disconnected] ∧
      (app_ctrl_iter st false c).2.connection_lost = true) ∧
    (∀ st : LinkState, st.connection_established = false →
      AppEvent.resetController ∈ (tryConnect st true true).1 ∧
      (tryConnect st true true).2.connection_established = true) ∧
    (∀ (r m : Int) (t : Nat),
      (piStep Controller_Reset r m t).2.integrator = 0 ∧
      (piStep Controller_Reset r m t).1 = 0) ∧
    (∀ (st : LinkState) (so : Bool), st.connection_established = false →
      AppEvent.delay 500 ∈ (tryConnect st so false).1 ∧
      (tryConnect st so false).2.connection_established = false) ∧
    (∀ st : LinkState, AppEvent.delay 1000 ∈ (handleDisconnect st).1) := by
  refine ⟨?_, ?_, ?_, ?_, ?_, ?_, ?_⟩
  · intro st so co h
    simp [Application_Loop_iter, handleDisconnect, h]
  · intro st se dr bs br h1 h2 h3
    rcases se <;> rcases dr <;> simp_all [app_comm_round]
    all_goals split_ifs <;> simp_all
  · intro st c h1 h2
    simp [app_ctrl_iter, h1, h2]
  · intro st h
    simp [tryConnect, h]
  · intro r m t
    simp [piStep, Controller_Reset]
  · intro st so h
    rcases so <;> simp [tryConnect, h]
  · intro st
    by_cases h : st.socket_open <;> simp [handleDisconnect, h]

/-- Witness for C7 at concrete states: a lost connection during `Connected`,
and a failed socket-status poll. -/
theorem C7_witness :
    ((Application_Loop_iter ⟨true, true, true⟩ false false).1.head?
        = some (AppEvent.actuate 0) ∧
      (handleDisconnect ⟨true, true, true⟩).2 = ⟨false, false, false⟩) ∧
    ((app_comm_round ⟨true, false, true⟩ false true 8 4).2.connection_lost
        = true ∧
      AppEvent.signalFlag FLAG_disconnected
        ∈ (app_comm_round ⟨true, false, true⟩ false true 8 4).1) :=
  ⟨C7_fault_neutral_reconnect.1 ⟨true, true, true⟩ false false rfl,
   C7_fault_neutral_reconnect.2.1 ⟨true, false, true⟩ false true 8 4 rfl rfl
     (Or.inl rfl)⟩

/-- C8.  The wire messages are fixed-layout: a `ClientData_t` is 8 bytes
(velocity's four bytes then timestamp's four), a `ServerData_t` is 4 bytes;
decoding the encoded bytes is the identity on the fields; and a transfer of
a byte count other than the fixed struct size is never partially parsed. -/
theorem C8_message_roundtrip :
    (∀ m : ClientData, -2147483648 ≤ m.velocity → m.velocity ≤ 2147483647 →
      m.timestamp < 4294967296 →
      decodeClientData (encodeClientData m) = some m) ∧
    (∀ m : ServerData, -2147483648 ≤ m.control → m.control ≤ 2147483647 →
      decodeServerData (encodeServerData m) = some m) ∧
    (∀ bs : List Nat, bs.length ≠ 8 → decodeClientData bs = none) ∧
    (∀ bs : List Nat, bs.length ≠ 4 → decodeServerData bs = none) ∧
    (∀ m : ClientData, (encodeClientData m).length = 8) ∧
    (∀ m : ServerData, (encodeServerData m).length = 4) := by
  refine ⟨?_, ?_, ?_, ?_, fun m => rfl, fun m => rfl⟩
  · intro m h1 h2 h3
    have hlen : (encodeClientData m).length = 8 := rfl
    have ht : (encodeClientData m).take 4 = intToBytesLE m.velocity := rfl
    have hd : (encodeClientData m).drop 4
        = encodeU32LE (m.timestamp % 4294967296) := rfl
    rw [decodeClientData, if_pos hlen, ht, hd, decode_encode_int32 _ h1 h2,
      decode_encode_u32 _ (by omega), Nat.mod_eq_of_lt h3]
  · intro m h1 h2
    have hlen : (encodeServerData m).length = 4 := rfl
    rw [decodeServerData, if_pos hlen]
    rw [show encodeServerData m = intToBytesLE m.control from rfl,
      decode_encode_int32 _ h1 h2]
  · intro bs h
    rw [decodeClientData, if_neg h]
  · intro bs h
    rw [decodeServerData, if_neg h]

/-- Witness for C8: a negative velocity round trip, a command round trip and
a short transfer rejected. -/
theorem C8_witness :
    decodeClientData (encodeClientData ⟨-5, 123⟩) = some ⟨-5, 123⟩ ∧
    decodeServerData (encodeServerData ⟨640000000⟩) = some ⟨640000000⟩ ∧
    decodeClientData [1, 2, 3] = none :=
  ⟨C8_message_roundtrip.1 ⟨-5, 123⟩ (by norm_num) (by norm_num) (by norm_num),
   C8_message_roundtrip.2.1 ⟨640000000⟩ (by norm_num) (by norm_num),
   C8_message_roundtrip.2.2.1 [1, 2, 3] (by norm_num)⟩

/-- C9.  If any of the three pointer arguments of `Controller_PIController`
is null the call returns 0 and leaves the whole stored state — integrator,
previous timestamp and first-call flag — unchanged. -/
theorem C9_null_pointer_guard (s : CtrlState) (r m : Option Int)
    (t : Option Nat) (h : r = none ∨ m = none ∨ t = none) :
    Controller_PIController s r m t = (0, s) := by
  rcases r with _ | r <;> rcases m with _ | m <;> rcases t with _ | t <;>
    first
    | rfl
    | (exfalso; rcases h with h | h | h <;> simp_all)

/-- Witness for C9 with a null reference pointer and a live state. -/
theorem C9_witness :
    Controller_PIController ⟨55, 66, false⟩ none (some 3) (some 4)
      = (0, ⟨55, 66, false⟩) :=
  C9_null_pointer_guard ⟨55, 66, false⟩ none (some 3) (some 4) (Or.inl rfl)

/-- Witness for C10 at a 16-bit `ARR` of 1000 and input 5. -/
theorem C10_witness :
    (Peripheral_PWM_ActuateMotor 1000 5).1 ≤ 1000 ∧
    (Peripheral_PWM_ActuateMotor 1000 5).2 ≤ 1000 ∧
    ((5 : Int) = 0 → Peripheral_PWM_ActuateMotor 1000 5 = (0, 0)) ∧
    ((0 : Int) < 5 → (Peripheral_PWM_ActuateMotor 1000 5).2 = 0) ∧
    ((5 : Int) < 0 → (Peripheral_PWM_ActuateMotor 1000 5).1 = 0) ∧
    ((Peripheral_PWM_ActuateMotor 1000 5).1 = 0 ∨
      (Peripheral_PWM_ActuateMotor 1000 5).2 = 0) ∧
    (VEL_MAX ≤ 5 → Peripheral_PWM_ActuateMotor 1000 5
        = Peripheral_PWM_ActuateMotor 1000 VEL_MAX) ∧
    ((5 : Int) ≤ -VEL_MAX → Peripheral_PWM_ActuateMotor 1000 5
        = Peripheral_PWM_ActuateMotor 1000 (-VEL_MAX)) :=
  C10_pwm_actuation_bounds 1000 5 (by norm_num)

end MF2103
